import Mathlib

/-!
Shallow embedding of `scripts/generate_placeholders.py`, a one-shot
developer utility that writes placeholder game assets (images, fonts,
audio) from three static specification tables.  Pure computations of the
script are translated into executable Lean definitions; the theorems at
the end of the file settle the specification claims against them.
-/

set_option maxHeartbeats 1000000

/-- Python's `str.endswith(suffix)`: the string ends with the given suffix,
decided by comparing the suffix with the final `suffix.length` characters. -/
def strEndsWith (s suffix : String) : Bool :=
  suffix.data == s.data.drop (s.data.length - suffix.data.length)

/-- Python's `int()` applied to a rational value: truncation toward zero
(`Int.tdiv` of the numerator by the positive denominator). -/
def pyInt (q : ℚ) : ℤ :=
  q.num.tdiv (q.den : ℤ)

/-- Python's floor division `//` on integers. -/
def pyFloorDiv (a b : ℤ) : ℤ :=
  Int.fdiv a b

-- ---------------------------------------------------------------------------
-- Data model: one record per static-table row
-- ---------------------------------------------------------------------------

/-- A row of `IMAGE_SPECS`: `(relative_path, width, height, color, label, format)`. -/
structure ImageSpec where
  path : String
  width : ℕ
  height : ℕ
  color : String
  label : String
  fmt : String
deriving DecidableEq

/-- A row of `AUDIO_SPECS`: `(relative_path, duration_seconds, sample_rate)`.
The duration is a Python number (int in the table, float in the signature of
`generate_wav`), modelled as a rational. -/
structure AudioSpec where
  path : String
  duration : ℚ
  sampleRate : ℕ
deriving DecidableEq

-- ---------------------------------------------------------------------------
-- Configuration tables (verbatim from the script)
-- ---------------------------------------------------------------------------

/-- The `IMAGE_SPECS` table of the script, row for row. -/
def IMAGE_SPECS : List ImageSpec := [
  ⟨"images/player.png",        64,   64,  "#5B8DEE", "P",  "PNG"⟩,
  ⟨"images/enemies.png",       64,   64,  "#EE5B5B", "E",  "PNG"⟩,
  ⟨"images/items.png",         32,   32,  "#F0C040", "I",  "PNG"⟩,
  ⟨"images/main_menu_bg.jpg", 1280, 720,  "#1A1A3E", "BG", "JPEG"⟩,
  ⟨"images/app_icon.png",      64,   64,  "#40B050", "G",  "PNG"⟩,
  ⟨"icons/new_game.png",       32,   32,  "#6090D0", "N",  "PNG"⟩,
  ⟨"icons/load_game.png",      32,   32,  "#6090D0", "L",  "PNG"⟩,
  ⟨"icons/settings.png",       32,   32,  "#808080", "S",  "PNG"⟩,
  ⟨"icons/exit.png",           32,   32,  "#D06060", "X",  "PNG"⟩,
  ⟨"icons/warrior.png",        32,   32,  "#C08040", "W",  "PNG"⟩,
  ⟨"icons/mage.png",           32,   32,  "#8040C0", "M",  "PNG"⟩,
  ⟨"icons/archer.png",         32,   32,  "#40C040", "A",  "PNG"⟩,
  ⟨"icons/inventory.png",      32,   32,  "#A0A060", "In", "PNG"⟩,
  ⟨"icons/quests.png",         32,   32,  "#D0A040", "Q",  "PNG"⟩,
  ⟨"icons/skills.png",         32,   32,  "#40A0D0", "Sk", "PNG"⟩,
  ⟨"icons/skill_1.png",        32,   32,  "#E06040", "1",  "PNG"⟩,
  ⟨"icons/skill_2.png",        32,   32,  "#40B0E0", "2",  "PNG"⟩,
  ⟨"icons/skill_3.png",        32,   32,  "#60E060", "3",  "PNG"⟩,
  ⟨"icons/save.png",           32,   32,  "#5080C0", "Sv", "PNG"⟩,
  ⟨"icons/chapter.png",        32,   32,  "#7060A0", "Ch", "PNG"⟩,
  ⟨"icons/location.png",       32,   32,  "#60A060", "Lo", "PNG"⟩,
  ⟨"icons/time.png",           32,   32,  "#A09050", "Ti", "PNG"⟩,
  ⟨"icons/quest.png",          32,   32,  "#D0A040", "Qu", "PNG"⟩,
  ⟨"icons/skill_attack.png",   32,   32,  "#E04040", "At", "PNG"⟩,
  ⟨"icons/skill_heal.png",     32,   32,  "#40E040", "He", "PNG"⟩,
  ⟨"icons/skill_fireball.png", 32,   32,  "#E08020", "Fi", "PNG"⟩,
  ⟨"icons/skill_default.png",  32,   32,  "#808080", "Df", "PNG"⟩,
  ⟨"icons/health_potion.png",  32,   32,  "#E04040", "HP", "PNG"⟩,
  ⟨"icons/mana_potion.png",    32,   32,  "#4040E0", "MP", "PNG"⟩,
  ⟨"icons/iron_sword.png",     32,   32,  "#A0A0B0", "Sw", "PNG"⟩,
  ⟨"images/player_avatar.png", 64,   64,  "#5B8DEE", "PA", "PNG"⟩,
  ⟨"images/default_item.png",  32,   32,  "#808080", "?",  "PNG"⟩,
  ⟨"images/ui/button_normal.png",  200, 50, "#3A5A8C", "BTN",  "PNG"⟩,
  ⟨"images/ui/button_hover.png",   200, 50, "#4A7ABE", "BTN",  "PNG"⟩,
  ⟨"images/ui/button_pressed.png", 200, 50, "#2A3A5C", "BTN",  "PNG"⟩,
  ⟨"images/ui/background.png",    1280, 720, "#1E1E2E", "",    "PNG"⟩]

/-- The `FONT_FILES` table of the script. -/
def FONT_FILES : List String :=
  ["fonts/game_font.ttf", "fonts/ui_font.ttf"]

/-- The `AUDIO_SPECS` table of the script. -/
def AUDIO_SPECS : List AudioSpec :=
  [⟨"sounds/bgm.mp3", 1, 22050⟩, ⟨"sounds/effects.wav", 1, 22050⟩]

-- ---------------------------------------------------------------------------
-- Compressed audio generator (`generate_silent_mp3`)
-- ---------------------------------------------------------------------------

/-- The four header bytes `FF FB 90 00` written by `generate_silent_mp3`. -/
def mp3Header : List ℕ := [0xFF, 0xFB, 0x90, 0x00]

/-- The whole file written by `generate_silent_mp3`: the 4 header bytes
followed by 100 zero bytes (`header + b"\x00" * 100`). -/
def mp3FrameData : List ℕ := mp3Header ++ List.replicate 100 0

/-- The first four bytes of a byte stream read as one big-endian 32-bit word
(the MPEG frame header word). -/
def headerWord : List ℕ → ℕ
  | b0 :: b1 :: b2 :: b3 :: _ => ((b0 * 256 + b1) * 256 + b2) * 256 + b3
  | _ => 0

/-- Bits 31..21 of the frame header word: the sync pattern. -/
def mpegSync (w : ℕ) : ℕ := w / 2 ^ 21

/-- Bits 20..19: MPEG version ID (`3` = MPEG version 1). -/
def mpegVersion (w : ℕ) : ℕ := w / 2 ^ 19 % 4

/-- Bits 18..17: layer index (`1` = Layer III). -/
def mpegLayer (w : ℕ) : ℕ := w / 2 ^ 17 % 4

/-- Bit 16: protection bit (`1` = no CRC error-check field follows). -/
def mpegProtection (w : ℕ) : ℕ := w / 2 ^ 16 % 2

/-- Bits 15..12: bitrate index. -/
def mpegBitrateIndex (w : ℕ) : ℕ := w / 2 ^ 12 % 16

/-- Bits 11..10: sample-rate index (`0` = 44100 Hz for MPEG version 1). -/
def mpegSampleRateIndex (w : ℕ) : ℕ := w / 2 ^ 10 % 4

/-- Bit 9: padding bit. -/
def mpegPadding (w : ℕ) : ℕ := w / 2 ^ 9 % 2

/-- Bits 7..6: channel mode (`0` = stereo). -/
def mpegChannelMode (w : ℕ) : ℕ := w / 2 ^ 6 % 4

/-- The MPEG-1 Layer III bitrate table (kbit/s) indexed by the header's
bitrate-index field; index 0 is "free" and 15 is forbidden.  Index 1
(32 kbit/s) is the minimum defined bitrate. -/
def mpeg1Layer3BitrateKbps : ℕ → Option ℕ
  | 1 => some 32  | 2 => some 40  | 3 => some 48  | 4 => some 56
  | 5 => some 64  | 6 => some 80  | 7 => some 96  | 8 => some 112
  | 9 => some 128 | 10 => some 160 | 11 => some 192 | 12 => some 224
  | 13 => some 256 | 14 => some 320 | _ => none

/-- The MPEG-1 sample-rate table (Hz) indexed by the header's
sample-rate-index field. -/
def mpeg1SampleRate : ℕ → Option ℕ
  | 0 => some 44100 | 1 => some 48000 | 2 => some 32000 | _ => none

/-- MPEG-1 Layer III frame size in bytes, header included, for a bitrate in
kbit/s and a sample rate in Hz, with padding bit clear:
`144 * bitrate / sample_rate` (the combination the script's comment cites:
32 kbit/s at 44100 Hz gives 104 bytes). -/
def mpeg1Layer3FrameSize (bitrateKbps sampleRate : ℕ) : ℕ :=
  144 * (bitrateKbps * 1000) / sampleRate

-- ---------------------------------------------------------------------------
-- Waveform audio generator (`generate_wav`)
-- ---------------------------------------------------------------------------

/-- The WAV data written through the `wave` module: channel count, sample
width in bytes, frame rate, and the list of frames (two bytes each). -/
structure WavFile where
  nchannels : ℕ
  sampwidth : ℕ
  framerate : ℕ
  frames : List (ℕ × ℕ)
deriving DecidableEq

/-- Embedding of `generate_wav(rel_path, duration, sample_rate)`: one channel, 2-byte
samples, the given frame rate, and `int(sample_rate * duration)` zero
frames (`b"\x00\x00" * n_frames`; a negative count yields no frames, as in
Python bytes repetition). -/
def generate_wav (s : AudioSpec) : WavFile :=
  { nchannels := 1
    sampwidth := 2
    framerate := s.sampleRate
    frames := List.replicate (pyInt ((s.sampleRate : ℚ) * s.duration)).toNat (0, 0) }

-- ---------------------------------------------------------------------------
-- Driver: the audio dispatch loop of `main`
-- ---------------------------------------------------------------------------

/-- The content a single audio-table entry causes to be written. -/
inductive AudioOut where
  | wav (w : WavFile)
  | mp3 (bytes : List ℕ)
deriving DecidableEq

/-- One iteration of the audio loop of `main`: `generate_wav(*spec)` for a
path ending in `.wav`, `generate_silent_mp3(rel)` for a path ending in
`.mp3`, and nothing at all otherwise (the `if`/`elif` chain has no `else`
branch, so an unmatched entry falls through silently). -/
def audioStep (s : AudioSpec) : Option (String × AudioOut) :=
  if strEndsWith s.path ".wav" then some (s.path, .wav (generate_wav s))
  else if strEndsWith s.path ".mp3" then some (s.path, .mp3 mp3FrameData)
  else none

/-- The whole audio loop of `main`: every table entry is processed in order;
entries matching no format contribute nothing and processing continues
(the loop is total, it never raises). -/
def runAudio (l : List AudioSpec) : List (String × AudioOut) :=
  l.filterMap audioStep

-- ---------------------------------------------------------------------------
-- Font generator (`generate_minimal_ttf`)
-- ---------------------------------------------------------------------------

/-- The fields passed to `fb.setupOS2(...)`. -/
structure OS2Table where
  sTypoAscender : ℤ
  sTypoDescender : ℤ
  sTypoLineGap : ℤ
  usWinAscent : ℕ
  usWinDescent : ℕ
deriving DecidableEq

/-- The font tables assembled by `generate_minimal_ttf` through the
`FontBuilder` calls: glyph order, character map, per-glyph contour counts
(the pen draws nothing, so every glyph has zero contours), horizontal
metrics `(advance_width, left_side_bearing)`, horizontal header ascender and
descender, name table entries, OS/2 metrics, post table presence, and
units-per-em from `FontBuilder(1000)` / `setupHead`. -/
structure FontDesc where
  unitsPerEm : ℕ
  isTTF : Bool
  glyphOrder : List String
  cmap : List (ℕ × String)
  glyfContours : List (String × ℕ)
  hmtx : List (String × ℕ × ℤ)
  hheaAscent : ℤ
  hheaDescent : ℤ
  familyName : String
  styleName : String
  os2 : OS2Table
  hasPost : Bool
  headUnitsPerEm : ℕ
deriving DecidableEq

/-- Embedding of `generate_minimal_ttf(rel_path)`: the font description assembled from
the fixed constants of the function body; the path argument does not enter
the content. -/
def generate_minimal_ttf (_relPath : String) : FontDesc :=
  { unitsPerEm := 1000
    isTTF := true
    glyphOrder := [".notdef", "space"]
    cmap := [(32, "space")]
    glyfContours := [(".notdef", 0), ("space", 0)]
    hmtx := [(".notdef", 500, 0), ("space", 250, 0)]
    hheaAscent := 800
    hheaDescent := -200
    familyName := "GamePlaceholder"
    styleName := "Regular"
    os2 := { sTypoAscender := 800, sTypoDescender := -200, sTypoLineGap := 0,
             usWinAscent := 800, usWinDescent := 200 }
    hasPost := true
    headUnitsPerEm := 1000 }

-- ---------------------------------------------------------------------------
-- Image generator (`generate_image`)
-- ---------------------------------------------------------------------------

/-- The numeric value of one hexadecimal digit character, if any. -/
def hexVal (c : Char) : Option ℕ :=
  if '0' ≤ c ∧ c ≤ '9' then some (c.toNat - '0'.toNat)
  else if 'a' ≤ c ∧ c ≤ 'f' then some (c.toNat - 'a'.toNat + 10)
  else if 'A' ≤ c ∧ c ≤ 'F' then some (c.toNat - 'A'.toNat + 10)
  else none

/-- Pillow's colour parsing restricted to the `#RRGGBB` hex-triplet form,
the only form the tables use; any other string fails (Pillow raises). -/
def parseHexColor (s : String) : Option (ℕ × ℕ × ℕ) :=
  match s.data with
  | ['#', r1, r2, g1, g2, b1, b2] =>
    match hexVal r1, hexVal r2, hexVal g1, hexVal g2, hexVal b1, hexVal b2 with
    | some a, some b, some c, some d, some e, some f =>
      some (16 * a + b, 16 * c + d, 16 * e + f)
    | _, _, _, _, _, _ => none
  | _ => none

/-- A pixel value: RGB in mode `"RGB"`, RGBA in mode `"RGBA"`. -/
inductive Pixel where
  | rgb (r g b : ℕ)
  | rgba (r g b a : ℕ)
deriving DecidableEq

/-- Whether the pixel value carries an alpha channel. -/
def Pixel.hasAlpha : Pixel → Bool
  | .rgba _ _ _ _ => true
  | .rgb _ _ _ => false

/-- The canvas built by `Image.new(mode, (width, height), color)`: every
pixel holds the fill colour (alpha 255 in RGBA mode, Pillow's default for
an opaque colour string). -/
structure Canvas where
  mode : String
  width : ℕ
  height : ℕ
  fill : Pixel
deriving DecidableEq

/-- The pixel of a freshly filled canvas at any coordinate: `Image.new`
fills the whole canvas with the single fill colour. -/
def Canvas.pixel (c : Canvas) (_x _y : ℕ) : Pixel := c.fill

/-- The bounding box returned by `draw.textbbox((0, 0), label, font=font)`. -/
structure BBox where
  x0 : ℤ
  y0 : ℤ
  x1 : ℤ
  y1 : ℤ
deriving DecidableEq

/-- One `draw.text((x, y), label, fill=..., font=...)` call. -/
structure TextOp where
  x : ℤ
  y : ℤ
  text : String
  fill : String
  fontSize : ℕ
deriving DecidableEq

/-- What one `generate_image` call produces: the filled canvas, the font
sizes loaded (`ImageFont.load_default(size=...)`), the text-draw calls
issued, and the format string passed to `img.save`. -/
structure GenResult where
  img : Canvas
  fontLoads : List ℕ
  ops : List TextOp
  savedFmt : String
deriving DecidableEq

/-- Embedding of `generate_image(rel_path, width, height, color, label, fmt)`, with the
text measurement `draw.textbbox` abstracted as the `measure` argument
(a function of the label and the loaded font size).  The colour must parse,
else the underlying library raises and the call produces nothing.  The mode
is `"RGBA"` for PNG and `"RGB"` otherwise; when the label is non-empty the
font size is `min(width, height) // 3`, the label's box is measured, and
one white text call is issued at
`((width - tw) // 2, (height - th) // 2)`. -/
def generate_image (measure : String → ℕ → BBox) (s : ImageSpec) :
    Option GenResult :=
  match parseHexColor s.color with
  | none => none
  | some (r, g, b) =>
    let mode := if s.fmt = "PNG" then "RGBA" else "RGB"
    let img : Canvas :=
      { mode := mode, width := s.width, height := s.height,
        fill := if s.fmt = "PNG" then Pixel.rgba r g b 255 else Pixel.rgb r g b }
    if s.label = "" then
      some { img := img, fontLoads := [], ops := [], savedFmt := s.fmt }
    else
      let fontSize := min s.width s.height / 3
      let bb := measure s.label fontSize
      let tw := bb.x1 - bb.x0
      let th := bb.y1 - bb.y0
      let x := pyFloorDiv ((s.width : ℤ) - tw) 2
      let y := pyFloorDiv ((s.height : ℤ) - th) 2
      some { img := img, fontLoads := [fontSize],
             ops := [⟨x, y, s.label, "white", fontSize⟩], savedFmt := s.fmt }

/-- The pixel at a coordinate of the saved image, when it is determined by
the model: with no text-draw call the saved image is the canvas unchanged,
so every pixel is the fill colour; text rasterisation itself is not
modelled, so a drawn-over image yields `none`. -/
def savedPixel (g : GenResult) (x y : ℕ) : Option Pixel :=
  if g.ops = [] then some (g.img.pixel x y) else none

-- ---------------------------------------------------------------------------
-- Driver: fixed-content writes and the full path list
-- ---------------------------------------------------------------------------

/-- Content of a fixed-content file (font or compressed audio). -/
inductive FixedContent where
  | font (d : FontDesc)
  | audio (bytes : List ℕ)
deriving DecidableEq

/-- The writes of one full run of `main` restricted to the fixed-content
generators (fonts and compressed audio), in execution order.  The run index
argument records which run it is; the script reads no state that varies
between runs, so the definition does not consult it. -/
def fixedContentWrites (_runIdx : ℕ) : List (String × FixedContent) :=
  FONT_FILES.map (fun p => (p, FixedContent.font (generate_minimal_ttf p))) ++
  AUDIO_SPECS.filterMap (fun s =>
    if strEndsWith s.path ".wav" then none
    else if strEndsWith s.path ".mp3" then some (s.path, FixedContent.audio mp3FrameData)
    else none)

/-- Every relative output path a run writes, in table order: the image
table's paths, then the font table, then the audio table's paths. -/
def allOutputPaths : List String :=
  IMAGE_SPECS.map ImageSpec.path ++ FONT_FILES ++ AUDIO_SPECS.map AudioSpec.path

-- ---------------------------------------------------------------------------
-- Helper lemmas
-- ---------------------------------------------------------------------------

/-- A path ending in `".mp3"` cannot also end in `".wav"`: both suffixes have
four characters, so they would have to coincide with the same final segment. -/
theorem strEndsWith_mp3_not_wav (p : String) (h : strEndsWith p ".mp3" = true) :
    strEndsWith p ".wav" = false := by
  unfold strEndsWith at h ⊢
  have hm : (".mp3" : String).data = ['.', 'm', 'p', '3'] := rfl
  have hw : (".wav" : String).data = ['.', 'w', 'a', 'v'] := rfl
  rw [hm] at h
  rw [hw]
  simp only [List.length_cons, List.length_nil] at h ⊢
  have heq : ['.', 'm', 'p', '3'] = p.data.drop (p.data.length - (0 + 1 + 1 + 1 + 1)) :=
    by exact_mod_cast beq_iff_eq.mp h
  rw [beq_eq_false_iff_ne]
  intro hcontra
  rw [← heq] at hcontra
  exact absurd hcontra (by decide)

-- ---------------------------------------------------------------------------
-- Claims
-- ---------------------------------------------------------------------------

/-- C1: the 104-byte file written by `generate_silent_mp3` does carry the
claimed sync pattern, MPEG-1 version, Layer III, no-CRC flag, 44100 Hz
sample-rate index and stereo channel mode, BUT its bitrate field is index 9,
which encodes 128 kbit/s — not the minimum bitrate (index 1, 32 kbit/s) the
claim and the script's own comment state — and the frame size implied by the
header's actual bitrate/sample-rate combination is 417 bytes, not the 104
bytes the file holds (104 is the frame size of the intended 32 kbit/s). -/
theorem mp3_header_encodes_128kbps_not_minimum :
    mpegSync (headerWord mp3FrameData) = 0x7FF ∧
    mpegVersion (headerWord mp3FrameData) = 3 ∧
    mpegLayer (headerWord mp3FrameData) = 1 ∧
    mpegProtection (headerWord mp3FrameData) = 1 ∧
    mpegSampleRateIndex (headerWord mp3FrameData) = 0 ∧
    mpeg1SampleRate 0 = some 44100 ∧
    mpegChannelMode (headerWord mp3FrameData) = 0 ∧
    mpegPadding (headerWord mp3FrameData) = 0 ∧
    mpegBitrateIndex (headerWord mp3FrameData) = 9 ∧
    mpeg1Layer3BitrateKbps 9 = some 128 ∧
    mpeg1Layer3BitrateKbps 1 = some 32 ∧
    mp3FrameData.length = 104 ∧
    mpeg1Layer3FrameSize 128 44100 = 417 ∧
    mpeg1Layer3FrameSize 32 44100 = 104 := by
  decide

/-- C8: the relative output paths of all three static specification tables
(image, font, audio) are pairwise distinct, so no two generator calls of a
run write the same file. -/
theorem allOutputPaths_nodup : allOutputPaths.Nodup := by
  decide

/-- C10: the content written for an audio-table entry whose path ends in
`.mp3` does not depend on the duration or sample-rate fields — the driver
hands only the path to `generate_silent_mp3`, which writes the same fixed
104 bytes regardless. -/
theorem mp3_content_independent_of_params (p : String) (d₁ d₂ : ℚ) (r₁ r₂ : ℕ)
    (h : strEndsWith p ".mp3" = true) :
    audioStep ⟨p, d₁, r₁⟩ = audioStep ⟨p, d₂, r₂⟩ ∧
    audioStep ⟨p, d₁, r₁⟩ = some (p, AudioOut.mp3 mp3FrameData) ∧
    mp3FrameData.length = 104 := by
  have hw := strEndsWith_mp3_not_wav p h
  refine ⟨?_, ?_, by decide⟩ <;> simp [audioStep, hw, h]

/-- C10 witness: the table's MP3 entry, paired with a variant whose duration
and sample rate differ, yields identical content. -/
theorem mp3_content_independent_of_params_witness :
    strEndsWith "sounds/bgm.mp3" ".mp3" = true ∧
    audioStep ⟨"sounds/bgm.mp3", 1, 22050⟩ = audioStep ⟨"sounds/bgm.mp3", 5, 44100⟩ ∧
    audioStep ⟨"sounds/bgm.mp3", 1, 22050⟩ = some ("sounds/bgm.mp3", AudioOut.mp3 mp3FrameData) := by
  have h := mp3_content_independent_of_params "sounds/bgm.mp3" 1 5 22050 44100 (by decide)
  exact ⟨by decide, h.1, h.2.1⟩

/-- C2: for every audio spec with positive duration and sample rate,
`generate_wav` produces one channel, 2-byte samples, the given frame rate,
and a number of silent two-zero-byte frames equal to the truncating integer
conversion of `sample_rate * duration`; and for every entry of the actual
audio table that truncated count equals `round(duration * sample_rate)`. -/
theorem generate_wav_silent_spec (s : AudioSpec)
    (hd : 0 < s.duration) (hr : 0 < s.sampleRate) :
    (generate_wav s).nchannels = 1 ∧
    (generate_wav s).sampwidth = 2 ∧
    (generate_wav s).framerate = s.sampleRate ∧
    ((generate_wav s).frames.length : ℤ) = pyInt ((s.sampleRate : ℚ) * s.duration) ∧
    (∀ f ∈ (generate_wav s).frames, f = (0, 0)) ∧
    (∀ t ∈ AUDIO_SPECS,
      pyInt ((t.sampleRate : ℚ) * t.duration) = round (t.duration * (t.sampleRate : ℚ))) := by
  refine ⟨rfl, rfl, rfl, ?_, ?_, ?_⟩
  · have hq : 0 < (s.sampleRate : ℚ) * s.duration := by
      have : (0 : ℚ) < (s.sampleRate : ℚ) := by exact_mod_cast hr
      exact mul_pos this hd
    have hnum : 0 < ((s.sampleRate : ℚ) * s.duration).num := Rat.num_pos.mpr hq
    have hden : (0 : ℤ) ≤ (((s.sampleRate : ℚ) * s.duration).den : ℤ) := by positivity
    have hnn : 0 ≤ pyInt ((s.sampleRate : ℚ) * s.duration) :=
      Int.tdiv_nonneg hnum.le hden
    simp [generate_wav, Int.toNat_of_nonneg hnn]
  · intro f hf
    exact List.eq_of_mem_replicate hf
  · intro t ht
    fin_cases ht <;> norm_num [pyInt]

/-- C2 witness: the wav entry of the audio table, evaluated concretely. -/
theorem generate_wav_silent_spec_witness :
    (0 : ℚ) < 1 ∧ (0 : ℕ) < 22050 ∧
    (generate_wav ⟨"sounds/effects.wav", 1, 22050⟩).nchannels = 1 ∧
    ((generate_wav ⟨"sounds/effects.wav", 1, 22050⟩).frames.length : ℤ)
      = pyInt (((22050 : ℕ) : ℚ) * 1) ∧
    pyInt (((22050 : ℕ) : ℚ) * 1) = 22050 := by
  have h := generate_wav_silent_spec ⟨"sounds/effects.wav", 1, 22050⟩
    (by norm_num) (by norm_num)
  exact ⟨by norm_num, by norm_num, h.1, h.2.2.2.1, by norm_num [pyInt]⟩

/-- C3 counterexample: an audio entry whose path matches no supported format
does not abort the run — the loop yields no call for it and completes
normally, processing the other entries exactly as before. -/
theorem malformed_audio_entry_is_skipped :
    runAudio [⟨"sounds/broken.ogg", 1, 22050⟩] = [] ∧
    runAudio (⟨"sounds/broken.ogg", 1, 22050⟩ :: AUDIO_SPECS) = runAudio AUDIO_SPECS ∧
    runAudio AUDIO_SPECS ≠ [] := by
  have h1 : strEndsWith "sounds/broken.ogg" ".wav" = false := by decide
  have h2 : strEndsWith "sounds/broken.ogg" ".mp3" = false := by decide
  have h3 : strEndsWith "sounds/bgm.mp3" ".wav" = false := by decide
  have h4 : strEndsWith "sounds/bgm.mp3" ".mp3" = true := by decide
  refine ⟨?_, ?_, ?_⟩
  · simp [runAudio, audioStep, h1, h2]
  · simp [runAudio, audioStep, h1, h2]
  · simp [runAudio, AUDIO_SPECS, List.filterMap_cons, audioStep, h3, h4]

/-- C3 amended: every entry of the audio table triggers exactly one matching
generator call (waveform for `.wav`, compressed for `.mp3`), in table order;
an entry whose path matches neither format is silently skipped — it
contributes no call and the loop continues with the remaining entries. -/
theorem runAudio_dispatch_per_entry :
    runAudio AUDIO_SPECS =
      [("sounds/bgm.mp3", AudioOut.mp3 mp3FrameData),
       ("sounds/effects.wav", AudioOut.wav (generate_wav ⟨"sounds/effects.wav", 1, 22050⟩))] ∧
    (∀ (s : AudioSpec) (l : List AudioSpec),
      strEndsWith s.path ".wav" = false → strEndsWith s.path ".mp3" = false →
      runAudio (s :: l) = runAudio l) := by
  have h3 : strEndsWith "sounds/bgm.mp3" ".wav" = false := by decide
  have h4 : strEndsWith "sounds/bgm.mp3" ".mp3" = true := by decide
  have h5 : strEndsWith "sounds/effects.wav" ".wav" = true := by decide
  constructor
  · simp [runAudio, AUDIO_SPECS, List.filterMap_cons, audioStep, h3, h4, h5]
  · intro s l hw hm
    simp [runAudio, List.filterMap_cons, audioStep, hw, hm]

/-- C3 amended witness: a concrete unmatched entry is skipped while the run
continues over an arbitrary concrete tail. -/
theorem runAudio_dispatch_per_entry_witness :
    strEndsWith "sounds/broken.xyz" ".wav" = false ∧
    strEndsWith "sounds/broken.xyz" ".mp3" = false ∧
    runAudio (⟨"sounds/broken.xyz", 2, 8000⟩ :: AUDIO_SPECS) = runAudio AUDIO_SPECS := by
  exact ⟨by decide, by decide,
    runAudio_dispatch_per_entry.2 ⟨"sounds/broken.xyz", 2, 8000⟩ AUDIO_SPECS
      (by decide) (by decide)⟩

/-- C4: the fixed-content writes (both font files and the compressed-audio
file) are identical between any two runs — the script reads nothing that
varies between runs, so the second run writes byte-for-byte what the first
wrote — and they equal one fixed list of contents. -/
theorem fixedContentWrites_deterministic (i j : ℕ) :
    fixedContentWrites i = fixedContentWrites j ∧
    fixedContentWrites i =
      [("fonts/game_font.ttf", FixedContent.font (generate_minimal_ttf "fonts/game_font.ttf")),
       ("fonts/ui_font.ttf", FixedContent.font (generate_minimal_ttf "fonts/ui_font.ttf")),
       ("sounds/bgm.mp3", FixedContent.audio mp3FrameData)] ∧
    generate_minimal_ttf "fonts/game_font.ttf" = generate_minimal_ttf "fonts/ui_font.ttf" := by
  refine ⟨rfl, ?_, rfl⟩
  have h0 : fixedContentWrites i = fixedContentWrites 0 := rfl
  rw [h0]
  decide

/-- C4 witness: a first and a second run compared concretely. -/
theorem fixedContentWrites_deterministic_witness :
    fixedContentWrites 0 = fixedContentWrites 1 ∧
    (fixedContentWrites 0).map Prod.fst =
      ["fonts/game_font.ttf", "fonts/ui_font.ttf", "sounds/bgm.mp3"] := by
  exact ⟨(fixedContentWrites_deterministic 0 1).1, by decide⟩

/-- C5: for every image spec whose colour parses, `generate_image` succeeds
and builds a canvas of exactly the requested width and height filled with
the parsed colour — RGBA (alpha present) when the format is PNG, RGB (no
alpha) otherwise, in particular for JPEG — and every entry of the actual
image table has a colour that parses, so every PNG entry yields an image
with an alpha channel and every JPEG entry one without. -/
theorem generate_image_canvas_spec (measure : String → ℕ → BBox) (s : ImageSpec)
    (r g b : ℕ) (hc : parseHexColor s.color = some (r, g, b)) :
    (∃ res, generate_image measure s = some res ∧
      res.img.width = s.width ∧
      res.img.height = s.height ∧
      res.img.mode = (if s.fmt = "PNG" then "RGBA" else "RGB") ∧
      res.img.fill = (if s.fmt = "PNG" then Pixel.rgba r g b 255 else Pixel.rgb r g b) ∧
      res.img.fill.hasAlpha = decide (s.fmt = "PNG") ∧
      (s.fmt = "JPEG" → res.img.fill.hasAlpha = false)) ∧
    (∀ t ∈ IMAGE_SPECS, (parseHexColor t.color).isSome = true) := by
  have key : (if s.fmt = "PNG" then Pixel.rgba r g b 255 else Pixel.rgb r g b).hasAlpha
      = decide (s.fmt = "PNG") := by
    by_cases hf : s.fmt = "PNG" <;> simp [hf, Pixel.hasAlpha]
  have key2 : s.fmt = "JPEG" →
      (if s.fmt = "PNG" then Pixel.rgba r g b 255 else Pixel.rgb r g b).hasAlpha = false := by
    intro hj
    rw [key, hj]
    decide
  constructor
  · unfold generate_image
    rw [hc]
    dsimp only
    by_cases hl : s.label = ""
    · rw [if_pos hl]
      exact ⟨_, rfl, rfl, rfl, rfl, rfl, key, key2⟩
    · rw [if_neg hl]
      exact ⟨_, rfl, rfl, rfl, rfl, rfl, key, key2⟩
  · decide

/-- C5 witness: the first table entry, a 64x64 PNG, evaluated concretely. -/
theorem generate_image_canvas_spec_witness :
    parseHexColor "#5B8DEE" = some (91, 141, 238) ∧
    ∃ res, generate_image (fun _ _ => ⟨0, 0, 0, 0⟩)
        ⟨"images/player.png", 64, 64, "#5B8DEE", "P", "PNG"⟩ = some res ∧
      res.img.width = 64 ∧
      res.img.height = 64 ∧
      res.img.fill = Pixel.rgba 91 141 238 255 ∧
      res.img.fill.hasAlpha = true := by
  refine ⟨by decide, ?_⟩
  obtain ⟨⟨res, h1, h2, h3, _, h5, h6, _⟩, _⟩ :=
    generate_image_canvas_spec (fun _ _ => ⟨0, 0, 0, 0⟩)
      ⟨"images/player.png", 64, 64, "#5B8DEE", "P", "PNG"⟩ 91 141 238 (by decide)
  exact ⟨res, h1, h2, h3, by simpa using h5, by simpa using h6⟩

/-- C6: the font assembled by `generate_minimal_ttf` has exactly the two
glyphs `[.notdef, space]` in that order, each with zero contours, a
character map binding code point 32 to the space glyph (glyph index 1, the
second glyph), horizontal metrics 500/0 and 250/0, ascender 800, descender
-200, units-per-em 1000, and the same vertical metrics in the OS/2 table. -/
theorem generate_minimal_ttf_content_spec (p : String) :
    (generate_minimal_ttf p).glyphOrder = [".notdef", "space"] ∧
    (generate_minimal_ttf p).glyphOrder.length = 2 ∧
    (generate_minimal_ttf p).cmap = [(32, "space")] ∧
    (generate_minimal_ttf p).glyphOrder.indexOf "space" = 1 ∧
    (generate_minimal_ttf p).glyfContours = [(".notdef", 0), ("space", 0)] ∧
    (generate_minimal_ttf p).hmtx = [(".notdef", 500, 0), ("space", 250, 0)] ∧
    (generate_minimal_ttf p).hheaAscent = 800 ∧
    (generate_minimal_ttf p).hheaDescent = -200 ∧
    (generate_minimal_ttf p).unitsPerEm = 1000 ∧
    (generate_minimal_ttf p).headUnitsPerEm = 1000 ∧
    (generate_minimal_ttf p).os2.sTypoAscender = (generate_minimal_ttf p).hheaAscent ∧
    (generate_minimal_ttf p).os2.sTypoDescender = (generate_minimal_ttf p).hheaDescent ∧
    (generate_minimal_ttf p).os2.usWinAscent = 800 ∧
    (generate_minimal_ttf p).os2.usWinDescent = 200 := by
  have h0 : generate_minimal_ttf p = generate_minimal_ttf "" := rfl
  rw [h0]
  decide

/-- C6 witness: the first font-table entry evaluated concretely. -/
theorem generate_minimal_ttf_content_spec_witness :
    (generate_minimal_ttf "fonts/game_font.ttf").glyphOrder = [".notdef", "space"] ∧
    (generate_minimal_ttf "fonts/game_font.ttf").cmap = [(32, "space")] ∧
    (generate_minimal_ttf "fonts/game_font.ttf").glyphOrder.indexOf "space" = 1 := by
  have h := generate_minimal_ttf_content_spec "fonts/game_font.ttf"
  exact ⟨h.1, h.2.2.1, h.2.2.2.1⟩

/-- C7: for every image spec whose colour parses and whose label is
non-empty, `generate_image` loads a font of size `min(width, height) // 3`,
measures the label's bounding box with it, and issues exactly one white
text-draw call at `((width - tw) // 2, (height - th) // 2)` where `tw` and
`th` are the measured box's width and height. -/
theorem generate_image_label_centered (measure : String → ℕ → BBox) (s : ImageSpec)
    (r g b : ℕ) (hc : parseHexColor s.color = some (r, g, b)) (hl : s.label ≠ "") :
    ∃ res, generate_image measure s = some res ∧
      res.fontLoads = [min s.width s.height / 3] ∧
      res.ops =
        [{ x := pyFloorDiv ((s.width : ℤ) -
               ((measure s.label (min s.width s.height / 3)).x1 -
                (measure s.label (min s.width s.height / 3)).x0)) 2,
           y := pyFloorDiv ((s.height : ℤ) -
               ((measure s.label (min s.width s.height / 3)).y1 -
                (measure s.label (min s.width s.height / 3)).y0)) 2,
           text := s.label,
           fill := "white",
           fontSize := min s.width s.height / 3 }] := by
  unfold generate_image
  rw [hc]
  dsimp only
  rw [if_neg hl]
  exact ⟨_, rfl, rfl, rfl⟩

/-- C7 witness: the first table entry with a concrete measurement whose box
is 10 wide and 8 tall gives font size 21 and a draw at (27, 28). -/
theorem generate_image_label_centered_witness :
    parseHexColor "#5B8DEE" = some (91, 141, 238) ∧
    ("P" : String) ≠ "" ∧
    ∃ res, generate_image (fun _ _ => ⟨1, 2, 11, 10⟩)
        ⟨"images/player.png", 64, 64, "#5B8DEE", "P", "PNG"⟩ = some res ∧
      res.fontLoads = [21] ∧
      res.ops = [{ x := 27, y := 28, text := "P", fill := "white", fontSize := 21 }] := by
  refine ⟨by decide, by decide, ?_⟩
  obtain ⟨res, h1, h2, h3⟩ :=
    generate_image_label_centered (fun _ _ => ⟨1, 2, 11, 10⟩)
      ⟨"images/player.png", 64, 64, "#5B8DEE", "P", "PNG"⟩ 91 141 238
      (by decide) (by decide)
  refine ⟨res, h1, ?_, ?_⟩
  · rw [h2]; decide
  · rw [h3]; decide

/-- C9: for every image spec whose colour parses and whose label is the
empty string, `generate_image` loads no font and issues no text-draw call,
and every pixel of the saved canvas is the parsed fill colour — with alpha
255 (full opacity) in the PNG case. -/
theorem generate_image_empty_label_plain_fill (measure : String → ℕ → BBox)
    (s : ImageSpec) (r g b : ℕ)
    (hc : parseHexColor s.color = some (r, g, b)) (hl : s.label = "") :
    ∃ res, generate_image measure s = some res ∧
      res.fontLoads = [] ∧
      res.ops = [] ∧
      (∀ x y, savedPixel res x y =
        some (if s.fmt = "PNG" then Pixel.rgba r g b 255 else Pixel.rgb r g b)) := by
  unfold generate_image
  rw [hc]
  dsimp only
  rw [if_pos hl]
  refine ⟨_, rfl, rfl, rfl, ?_⟩
  intro x y
  simp [savedPixel, Canvas.pixel]

/-- C9 witness: the single empty-label table entry (the 1280x720 PNG
background) evaluated concretely: no font, no draw, every pixel the fill
colour at full opacity. -/
theorem generate_image_empty_label_plain_fill_witness :
    parseHexColor "#1E1E2E" = some (30, 30, 46) ∧
    ∃ res, generate_image (fun _ _ => ⟨0, 0, 0, 0⟩)
        ⟨"images/ui/background.png", 1280, 720, "#1E1E2E", "", "PNG"⟩ = some res ∧
      res.fontLoads = [] ∧
      res.ops = [] ∧
      (∀ x y, savedPixel res x y = some (Pixel.rgba 30 30 46 255)) := by
  refine ⟨by decide, ?_⟩
  obtain ⟨res, h1, h2, h3, h4⟩ :=
    generate_image_empty_label_plain_fill (fun _ _ => ⟨0, 0, 0, 0⟩)
      ⟨"images/ui/background.png", 1280, 720, "#1E1E2E", "", "PNG"⟩ 30 30 46
      (by decide) rfl
  exact ⟨res, h1, h2, h3, by simpa using h4⟩
